import Mathlib

/-!
Shallow embedding of the LSTimer core (`src/main.rs`): the timing state machine
and the statistics engine of the `CubeTimer` application, together with proofs
of the specified properties.

Modelling conventions:
* `std::time::Duration` and `std::time::Instant` are modelled as `Nat`
  (nanoseconds).  Rust's `Instant::duration_since` saturates at zero, which
  matches truncated `Nat` subtraction; `Duration / u32` truncates at
  nanosecond resolution, which matches `Nat` division.
* Scramble generation is randomized in the source; the embedding is
  parameterized by a scramble generator `g : CubeEvent → String`, which the
  state machine consults exactly where the source calls `generate_scramble`.
* The wall-clock timestamp (`Local::now()`) recorded in a `TimeRecord` is
  modelled by the same `now : Nat` instant that drives the transition.
* Presentation-only fields (theme, UI state, animation scales) and
  persistence (`save_data`, which never touches in-memory state) are outside
  the model; all fields the core logic reads or writes are kept.
-/

namespace LSTimer

/-- `TimerState` from the source: the possible states of the timer. -/
inductive TimerState
  | Ready
  | Preparing
  | Running
  | Stopped
  deriving DecidableEq

/-- `StandardEvent` from the source: standard cube events. -/
inductive StandardEvent
  | Cube3x3 | Cube2x2 | Cube4x4 | Cube5x5 | Cube6x6 | Cube7x7
  | Pyraminx | Megaminx | Skewb | Square1 | Clock
  | OneHanded | Blindfolded | FeetSolving
  deriving DecidableEq

/-- `CubeEvent` from the source: standard or custom solving events. -/
inductive CubeEvent
  | Standard (e : StandardEvent)
  | Custom (name : String)
  deriving DecidableEq

/-- `Penalty` from the source: penalties that can be applied to a solve. -/
inductive Penalty
  | Plus2
  | DNF
  deriving DecidableEq

/-- `TimeRecord` from the source: a single solve record. -/
structure TimeRecord where
  time : Nat
  event : CubeEvent
  scramble : String
  timestamp : Nat
  penalty : Option Penalty
  comment : String
  deriving DecidableEq

/-- `Statistics` from the source: aggregated statistical data. -/
structure Statistics where
  best : Option Nat
  worst : Option Nat
  current_ao5 : Option Nat
  current_ao12 : Option Nat
  current_ao100 : Option Nat
  mean : Option Nat
  deriving DecidableEq

/-- The all-`None` statistics value assigned when the filtered set is empty. -/
def emptyStatistics : Statistics :=
  { best := none, worst := none, current_ao5 := none, current_ao12 := none,
    current_ao100 := none, mean := none }

/-- The core fields of the `CubeTimer` application struct (presentation and
persistence fields omitted). -/
structure CubeTimer where
  state : TimerState
  start_time : Option Nat
  current_time : Nat
  last_time : Option Nat
  current_event : CubeEvent
  current_scramble : String
  records : List TimeRecord
  statistics : Statistics
  space_pressed : Bool
  space_hold_start : Option Nat
  key_preparation_time : Nat
  deriving DecidableEq

/-- `Iterator::min` on the filtered duration list. -/
def listMin : List Nat → Option Nat
  | [] => none
  | a :: as => some (as.foldl min a)

/-- `Iterator::max` on the filtered duration list. -/
def listMax : List Nat → Option Nat
  | [] => none
  | a :: as => some (as.foldl max a)

/-- The filter inside `calculate_statistics`: records of the current event
whose `penalty.is_none()`, mapped to their durations. -/
def filteredTimes (s : CubeTimer) : List Nat :=
  (s.records.filter fun r => decide (r.event = s.current_event) && r.penalty.isNone).map
    fun r => r.time

/-- `calculate_average` from the source: the trimmed mean of a window.
The source computes the trim count as `(times.len() as f32 * 0.05).ceil() as
usize`; for every length this function is applied to (windows of at most 100
elements) that `f32` computation yields exactly `⌈len / 20⌉ = (len + 19) / 20`,
which is used here. -/
def calculate_average (times : List Nat) : Option Nat :=
  if times.length < 5 then none
  else
    let sorted := List.insertionSort (fun a b => a ≤ b) times
    let remove_count := (times.length + 19) / 20
    if remove_count * 2 ≥ times.length then none
    else
      let trimmed := (sorted.drop remove_count).take (sorted.length - remove_count - remove_count)
      some (trimmed.sum / trimmed.length)

/-- `calculate_basic_stats` from the source: best, worst and mean. -/
def calculate_basic_stats (stats : Statistics) (times : List Nat) : Statistics :=
  { stats with best := listMin times, worst := listMax times,
               mean := some (times.sum / times.length) }

/-- `calculate_averages` from the source: conditionally assigns ao5/ao12/ao100
over the last 5/12/100 recorded times (taken in reverse order, as
`iter().rev().take(n)` does). -/
def calculate_averages (stats : Statistics) (times : List Nat) : Statistics :=
  let s1 := if 5 ≤ times.length then
      { stats with current_ao5 := calculate_average (times.reverse.take 5) }
    else stats
  let s2 := if 12 ≤ times.length then
      { s1 with current_ao12 := calculate_average (times.reverse.take 12) }
    else s1
  if 100 ≤ times.length then
    { s2 with current_ao100 := calculate_average (times.reverse.take 100) }
  else s2

/-- `calculate_statistics` from the source: recomputes the statistics field
from the filtered history. -/
def calculate_statistics (s : CubeTimer) : CubeTimer :=
  let ts := filteredTimes s
  if ts.isEmpty then { s with statistics := emptyStatistics }
  else { s with statistics := calculate_averages (calculate_basic_stats s.statistics ts) ts }

section StateMachine

variable (g : CubeEvent → String)

/-- `generate_new_scramble` from the source, with the random scramble supplied
by the generator parameter. -/
def generate_new_scramble (s : CubeTimer) : CubeTimer :=
  { s with current_scramble := g s.current_event }

/-- `save_time_record` from the source: pushes the completed record and
recomputes statistics (`save_data` only touches persistent storage). -/
def save_time_record (s : CubeTimer) (tstamp : Nat) : CubeTimer :=
  calculate_statistics
    { s with records := s.records ++
        [{ time := s.current_time, event := s.current_event,
           scramble := s.current_scramble, timestamp := tstamp,
           penalty := none, comment := "" }] }

/-- `start_timer` from the source. -/
def start_timer (s : CubeTimer) (now : Nat) : CubeTimer :=
  { s with state := TimerState.Running, start_time := some now, current_time := 0 }

/-- `try_start_timer` from the source: starts iff the hold lasted at least
`key_preparation_time`. -/
def try_start_timer (s : CubeTimer) (now : Nat) : CubeTimer :=
  match s.space_hold_start with
  | some hold_start =>
      if s.key_preparation_time ≤ now - hold_start then start_timer s now
      else { s with state := TimerState.Ready }
  | none => s

/-- `stop_timer` from the source: computes the elapsed time, emits the record,
and moves to `Stopped`. -/
def stop_timer (s : CubeTimer) (now : Nat) : CubeTimer :=
  let s1 := match s.start_time with
    | some st =>
        let s2 := { s with current_time := now - st, last_time := some (now - st) }
        generate_new_scramble g (save_time_record s2 now)
    | none => s
  { s1 with state := TimerState.Stopped, start_time := none }

/-- `handle_space_press` from the source. -/
def handle_space_press (s : CubeTimer) (now : Nat) : CubeTimer :=
  let s1 := { s with space_pressed := true, space_hold_start := some now }
  match s1.state with
  | TimerState.Ready => { s1 with state := TimerState.Preparing }
  | TimerState.Running => stop_timer g s1 now
  | TimerState.Stopped => { s1 with state := TimerState.Preparing }
  | TimerState.Preparing => s1

/-- `handle_space_release` from the source. -/
def handle_space_release (s : CubeTimer) (now : Nat) : CubeTimer :=
  let s1 := { s with space_pressed := false }
  let s2 := match s1.state with
    | TimerState.Preparing => try_start_timer s1 now
    | TimerState.Stopped => { s1 with state := TimerState.Ready }
    | _ => s1
  { s2 with space_hold_start := none }

/-- `handle_space_key` from the source: suppresses duplicate edges via the
`space_pressed` flag. -/
def handle_space_key (s : CubeTimer) (pressed : Bool) (now : Nat) : CubeTimer :=
  if pressed && !s.space_pressed then handle_space_press g s now
  else if !pressed && s.space_pressed then handle_space_release s now
  else s

/-- The elapsed-time refresh in `handle_timer_updates`: while `Running`, the
displayed time is recomputed from `now - start` on each tick. -/
def handle_timer_updates (s : CubeTimer) (now : Nat) : CubeTimer :=
  if s.state = TimerState.Running then
    match s.start_time with
    | some st => { s with current_time := now - st }
    | none => s
  else s

/-- `delete_time` from the source: removes the record at `index` if in range,
otherwise does nothing. -/
def delete_time (s : CubeTimer) (index : Nat) : CubeTimer :=
  if index < s.records.length then
    calculate_statistics { s with records := s.records.eraseIdx index }
  else s

/-- In-place update of the record at a given position (models
`self.records[index].field = v`, which the source only performs after an
explicit bounds check). -/
def modifyRecord (f : TimeRecord → TimeRecord) : List TimeRecord → Nat → List TimeRecord
  | [], _ => []
  | r :: rs, 0 => f r :: rs
  | r :: rs, n + 1 => r :: modifyRecord f rs n

/-- `update_time_comment` from the source (no statistics recompute here). -/
def update_time_comment (s : CubeTimer) (index : Nat) (c : String) : CubeTimer :=
  if index < s.records.length then
    { s with records := modifyRecord (fun r => { r with comment := c }) s.records index }
  else s

/-- `apply_penalty` from the source: sets the penalty if in range and
recomputes statistics. -/
def apply_penalty (s : CubeTimer) (index : Nat) (p : Option Penalty) : CubeTimer :=
  if index < s.records.length then
    calculate_statistics
      { s with records := modifyRecord (fun r => { r with penalty := p }) s.records index }
  else s

/-- `CubeTimer::default` from the source, restricted to the modelled fields:
the initial `Ready` state with empty history and a 300 ms hold threshold. -/
def default_timer : CubeTimer :=
  { state := TimerState.Ready, start_time := none, current_time := 0,
    last_time := none, current_event := CubeEvent.Standard StandardEvent.Cube3x3,
    current_scramble := g (CubeEvent.Standard StandardEvent.Cube3x3),
    records := [], statistics := emptyStatistics, space_pressed := false,
    space_hold_start := none, key_preparation_time := 300000000 }

/-- Runs the timer state machine from the initial state over a list of
press/release edges, each tagged with the instant at which it is delivered. -/
def run (edges : List (Bool × Nat)) : CubeTimer :=
  edges.foldl (fun s e => handle_space_key g s e.1 e.2) (default_timer g)

end StateMachine

/-! ### Concrete fixtures used by witnesses and counterexamples -/

/-- A fixed scramble generator for concrete evaluations. -/
def g0 : CubeEvent → String := fun _ => ""

/-- The default event. -/
def e3 : CubeEvent := CubeEvent.Standard StandardEvent.Cube3x3

/-- A solve record of the default event with a given duration and penalty. -/
def rec0 (t : Nat) (p : Option Penalty) : TimeRecord :=
  { time := t, event := e3, scramble := "", timestamp := 0, penalty := p, comment := "" }

/-! ### Field-preservation lemmas -/

@[simp] theorem calculate_statistics_state (s : CubeTimer) :
    (calculate_statistics s).state = s.state := by
  simp only [calculate_statistics]; split <;> rfl

@[simp] theorem calculate_statistics_start_time (s : CubeTimer) :
    (calculate_statistics s).start_time = s.start_time := by
  simp only [calculate_statistics]; split <;> rfl

@[simp] theorem calculate_statistics_current_time (s : CubeTimer) :
    (calculate_statistics s).current_time = s.current_time := by
  simp only [calculate_statistics]; split <;> rfl

@[simp] theorem calculate_statistics_last_time (s : CubeTimer) :
    (calculate_statistics s).last_time = s.last_time := by
  simp only [calculate_statistics]; split <;> rfl

@[simp] theorem calculate_statistics_current_event (s : CubeTimer) :
    (calculate_statistics s).current_event = s.current_event := by
  simp only [calculate_statistics]; split <;> rfl

@[simp] theorem calculate_statistics_current_scramble (s : CubeTimer) :
    (calculate_statistics s).current_scramble = s.current_scramble := by
  simp only [calculate_statistics]; split <;> rfl

@[simp] theorem calculate_statistics_records (s : CubeTimer) :
    (calculate_statistics s).records = s.records := by
  simp only [calculate_statistics]; split <;> rfl

@[simp] theorem calculate_statistics_space_pressed (s : CubeTimer) :
    (calculate_statistics s).space_pressed = s.space_pressed := by
  simp only [calculate_statistics]; split <;> rfl

@[simp] theorem calculate_statistics_space_hold_start (s : CubeTimer) :
    (calculate_statistics s).space_hold_start = s.space_hold_start := by
  simp only [calculate_statistics]; split <;> rfl

@[simp] theorem calculate_statistics_key_preparation_time (s : CubeTimer) :
    (calculate_statistics s).key_preparation_time = s.key_preparation_time := by
  simp only [calculate_statistics]; split <;> rfl

/-! ### Claim C1: the statistics filter and `+2`-penalized records -/

/-- The session exhibiting the discrepancy: a single record of the active
event carrying a `+2` penalty. -/
def cexPlus2Session : CubeTimer :=
  { default_timer g0 with records := [rec0 5000000000 (some Penalty.Plus2)] }

/-- Claim C1, counterexample: the history holds one record of the active event
whose penalty is `+2` (hence not `DNF`), yet the filter keeps nothing and the
recomputed statistics report no best time — the source excludes every
penalized record, `+2` included, from numeric aggregation. -/
theorem plus2_included_cex :
    (∃ r ∈ cexPlus2Session.records,
      r.event = cexPlus2Session.current_event ∧ r.penalty = some Penalty.Plus2) ∧
    filteredTimes cexPlus2Session = [] ∧
    (calculate_statistics cexPlus2Session).statistics.best = none := by
  decide

/-- Claim C1 (amended): the statistics filter keeps exactly the records that
match the active event and carry no penalty at all; in particular a record
carrying a `+2` penalty is excluded from numeric aggregation. -/
theorem filter_keeps_unpenalized (s : CubeTimer) (r : TimeRecord) :
    (filteredTimes { s with records := r :: s.records } =
      (if r.event = s.current_event ∧ r.penalty = none then [r.time] else []) ++
        filteredTimes s) ∧
    (r.penalty = some Penalty.Plus2 →
      filteredTimes { s with records := r :: s.records } = filteredTimes s) := by
  constructor
  · by_cases h : r.event = s.current_event ∧ r.penalty = none
    · simp [filteredTimes, List.filter_cons, h.1, h.2]
    · rcases Decidable.not_and_iff_or_not.mp h with h1 | h1 <;>
        simp [filteredTimes, List.filter_cons, h, h1]
  · intro hp
    by_cases h : r.event = s.current_event ∧ r.penalty = none
    · rw [h.2] at hp; cases hp
    · rcases Decidable.not_and_iff_or_not.mp h with h1 | h1 <;>
        simp [filteredTimes, List.filter_cons, h1, hp]

/-- Witness for the amended C1: adding a `+2`-penalized record of the active
event leaves the filtered set unchanged. -/
theorem filter_keeps_unpenalized_witness :
    filteredTimes { default_timer g0 with
        records := rec0 4000000000 (some Penalty.Plus2) :: (default_timer g0).records } =
      filteredTimes (default_timer g0) :=
  (filter_keeps_unpenalized (default_timer g0) (rec0 4000000000 (some Penalty.Plus2))).2 rfl

/-! ### Claim C2: instants present in each phase -/

/-- The instant/phase invariant that actually holds on every reachable state:
the start instant is present exactly in `Running`; the hold-start instant is
present exactly while the space key is considered pressed, which covers
`Preparing` but also the `Stopped` state entered by pressing while `Running`. -/
def Inv (s : CubeTimer) : Prop :=
  (s.start_time.isSome = true ↔ s.state = TimerState.Running) ∧
  (s.space_hold_start.isSome = true ↔ s.space_pressed = true) ∧
  (s.state = TimerState.Preparing → s.space_pressed = true) ∧
  (s.space_pressed = true →
    s.state = TimerState.Preparing ∨ s.state = TimerState.Stopped)

theorem inv_default (g : CubeEvent → String) : Inv (default_timer g) := by
  refine ⟨?_, ?_, ?_, ?_⟩ <;> simp [default_timer, Inv]

theorem inv_press (g : CubeEvent → String) (s : CubeTimer) (now : Nat)
    (h : Inv s) : Inv (handle_space_press g s now) := by
  obtain ⟨h1, h2, h3, h4⟩ := h
  cases hst : s.state with
  | Ready =>
    have hstart : s.start_time = none := by
      cases hs : s.start_time with
      | none => rfl
      | some v => rw [hst] at h1; simp [hs] at h1
    refine ⟨?_, ?_, ?_, ?_⟩ <;> simp [handle_space_press, hst, Inv, hstart]
  | Preparing =>
    have hstart : s.start_time = none := by
      cases hs : s.start_time with
      | none => rfl
      | some v => rw [hst] at h1; simp [hs] at h1
    refine ⟨?_, ?_, ?_, ?_⟩ <;> simp [handle_space_press, hst, Inv, hstart]
  | Stopped =>
    have hstart : s.start_time = none := by
      cases hs : s.start_time with
      | none => rfl
      | some v => rw [hst] at h1; simp [hs] at h1
    refine ⟨?_, ?_, ?_, ?_⟩ <;> simp [handle_space_press, hst, Inv, hstart]
  | Running =>
    cases hs : s.start_time with
    | none => rw [hst] at h1; simp [hs] at h1
    | some st =>
      refine ⟨?_, ?_, ?_, ?_⟩ <;>
        simp [handle_space_press, hst, stop_timer, hs, generate_new_scramble, save_time_record]

theorem inv_release (s : CubeTimer) (now : Nat)
    (h : Inv s) (hp : s.space_pressed = true) : Inv (handle_space_release s now) := by
  obtain ⟨h1, h2, h3, h4⟩ := h
  rcases h4 hp with hst | hst
  · have hhold : ∃ hs, s.space_hold_start = some hs := by
      cases hh : s.space_hold_start with
      | none => rw [hh] at h2; simp [hp] at h2
      | some v => exact ⟨v, rfl⟩
    obtain ⟨hs, hhold⟩ := hhold
    have hstart : s.start_time = none := by
      cases hv : s.start_time with
      | none => rfl
      | some v => rw [hst] at h1; simp [hv] at h1
    by_cases hth : s.key_preparation_time ≤ now - hs
    · refine ⟨?_, ?_, ?_, ?_⟩ <;>
        simp [handle_space_release, hst, try_start_timer, hhold, hth, start_timer]
    · refine ⟨?_, ?_, ?_, ?_⟩ <;>
        simp [handle_space_release, hst, try_start_timer, hhold, hth, hstart]
  · have hstart : s.start_time = none := by
      cases hv : s.start_time with
      | none => rfl
      | some v => rw [hst] at h1; simp [hv] at h1
    refine ⟨?_, ?_, ?_, ?_⟩ <;> simp [handle_space_release, hst, hstart]

theorem inv_step (g : CubeEvent → String) (s : CubeTimer) (p : Bool) (now : Nat)
    (h : Inv s) : Inv (handle_space_key g s p now) := by
  cases p with
  | true =>
    cases hp : s.space_pressed with
    | false => simpa [handle_space_key, hp] using inv_press g s now h
    | true => simpa [handle_space_key, hp] using h
  | false =>
    cases hp : s.space_pressed with
    | false => simpa [handle_space_key, hp] using h
    | true => simpa [handle_space_key, hp] using inv_release s now h hp

/-- Claim C2 (amended): on every state reachable from the initial `Ready`
state by press/release edges, the start instant is present iff the phase is
`Running`; the hold-start instant is present iff the pressed flag is set,
which holds throughout `Preparing` but also persists into the `Stopped`
phase entered by pressing while `Running` (so "hold-start present iff
`Preparing`" fails there, see the counterexample). -/
theorem reachable_instant_invariant (g : CubeEvent → String) (edges : List (Bool × Nat)) :
    Inv (run g edges) := by
  have main : ∀ (l : List (Bool × Nat)) (s : CubeTimer), Inv s →
      Inv (l.foldl (fun s e => handle_space_key g s e.1 e.2) s) := by
    intro l
    induction l with
    | nil => intro s h; exact h
    | cons e rest ih => intro s h; exact ih _ (inv_step g s e.1 e.2 h)
  exact main edges _ (inv_default g)

/-- Claim C2, counterexample: after press, release at 300 ms (starting the
solve), and press again at 1 s (stopping it), the machine is in `Stopped`
while the hold-start instant is still present — refuting "hold-start present
iff phase is `Preparing`" on a reachable state. -/
theorem hold_start_in_stopped_cex :
    (run g0 [(true, 0), (false, 300000000), (true, 1000000000)]).state = TimerState.Stopped ∧
    ¬ (((run g0 [(true, 0), (false, 300000000), (true, 1000000000)]).space_hold_start.isSome
          = true) ↔
        (run g0 [(true, 0), (false, 300000000), (true, 1000000000)]).state
          = TimerState.Preparing) := by
  decide

/-! ### Claim C3: stopping emits exactly one record -/

/-- Claim C3: a press edge delivered while `Running` (with the pressed flag
clear, as on every reachable `Running` state) moves the phase to `Stopped`,
clears the start instant, and appends exactly one record whose duration is
`now - start`; every other press/release transition leaves the history
untouched. -/
theorem press_while_running_emits (g : CubeEvent → String) :
    (∀ (s : CubeTimer) (now st : Nat), s.state = TimerState.Running →
      s.space_pressed = false → s.start_time = some st →
      (handle_space_key g s true now).state = TimerState.Stopped ∧
      (handle_space_key g s true now).start_time = none ∧
      (handle_space_key g s true now).records = s.records ++
        [{ time := now - st, event := s.current_event, scramble := s.current_scramble,
           timestamp := now, penalty := none, comment := "" }]) ∧
    (∀ (s : CubeTimer) (pressed : Bool) (now : Nat),
      ¬(pressed = true ∧ s.space_pressed = false ∧ s.state = TimerState.Running) →
      (handle_space_key g s pressed now).records = s.records) := by
  constructor
  · intro s now st hst hp hstart
    refine ⟨?_, ?_, ?_⟩ <;>
      simp [handle_space_key, hp, handle_space_press, hst, stop_timer, hstart,
        generate_new_scramble, save_time_record]
  · intro s pressed now hno
    cases pressed with
    | true =>
      cases hp : s.space_pressed with
      | true => simp [handle_space_key, hp]
      | false =>
        have hst : s.state ≠ TimerState.Running := fun hst => hno ⟨rfl, hp, hst⟩
        cases hs : s.state with
        | Running => exact absurd hs hst
        | Ready => simp [handle_space_key, hp, handle_space_press, hs]
        | Preparing => simp [handle_space_key, hp, handle_space_press, hs]
        | Stopped => simp [handle_space_key, hp, handle_space_press, hs]
    | false =>
      cases hp : s.space_pressed with
      | false => simp [handle_space_key, hp]
      | true =>
        cases hs : s.state with
        | Preparing =>
          cases hh : s.space_hold_start with
          | none => simp [handle_space_key, hp, handle_space_release, hs, try_start_timer, hh]
          | some v =>
            by_cases hth : s.key_preparation_time ≤ now - v <;>
              simp [handle_space_key, hp, handle_space_release, hs, try_start_timer, hh, hth,
                start_timer]
        | Ready => simp [handle_space_key, hp, handle_space_release, hs]
        | Running => simp [handle_space_key, hp, handle_space_release, hs]
        | Stopped => simp [handle_space_key, hp, handle_space_release, hs]

/-- Witness for C3: pressing at 1.3 s in the `Running` state reached by a
press at 0 and a release at 300 ms appends the single record of duration
1.3 s − 300 ms = 1 s. -/
theorem press_while_running_emits_witness :
    (run g0 [(true, 0), (false, 300000000)]).state = TimerState.Running ∧
      (handle_space_key g0 (run g0 [(true, 0), (false, 300000000)]) true 1300000000).state
          = TimerState.Stopped ∧
      (handle_space_key g0 (run g0 [(true, 0), (false, 300000000)]) true 1300000000).start_time
          = none ∧
      (handle_space_key g0 (run g0 [(true, 0), (false, 300000000)]) true 1300000000).records
        = (run g0 [(true, 0), (false, 300000000)]).records ++
          [{ time := 1300000000 - 300000000,
             event := (run g0 [(true, 0), (false, 300000000)]).current_event,
             scramble := (run g0 [(true, 0), (false, 300000000)]).current_scramble,
             timestamp := 1300000000, penalty := none, comment := "" }] :=
  ⟨by decide,
    (press_while_running_emits g0).1 (run g0 [(true, 0), (false, 300000000)])
      1300000000 300000000 (by decide) (by decide) (by decide)⟩

/-! ### Claim C4: the hold threshold is inclusive -/

/-- Claim C4: releasing in `Preparing` starts the solve exactly when the hold
duration reached the preparation threshold (`≥`, boundary included); a
shorter hold returns to `Ready` and emits nothing. -/
theorem release_threshold (g : CubeEvent → String) (s : CubeTimer) (now hs : Nat)
    (h1 : s.state = TimerState.Preparing) (h2 : s.space_pressed = true)
    (h3 : s.space_hold_start = some hs) :
    (s.key_preparation_time ≤ now - hs →
      (handle_space_key g s false now).state = TimerState.Running) ∧
    (now - hs < s.key_preparation_time →
      (handle_space_key g s false now).state = TimerState.Ready ∧
      (handle_space_key g s false now).records = s.records) := by
  constructor
  · intro hth
    simp [handle_space_key, h2, handle_space_release, h1, try_start_timer, h3, hth, start_timer]
  · intro hth
    have hth2 : ¬ s.key_preparation_time ≤ now - hs := by omega
    constructor <;>
      simp [handle_space_key, h2, handle_space_release, h1, try_start_timer, h3, hth2]

/-- Witness for C4: with the default 300 ms threshold and a hold begun at 0,
releasing at exactly 300 ms starts the timer and releasing at 299 ms (1 ms
short) returns to `Ready` with no record. -/
theorem release_threshold_witness :
    (run g0 [(true, 0)]).key_preparation_time = 300000000 ∧
      (handle_space_key g0 (run g0 [(true, 0)]) false 300000000).state
        = TimerState.Running ∧
      ((handle_space_key g0 (run g0 [(true, 0)]) false 299000000).state
          = TimerState.Ready ∧
        (handle_space_key g0 (run g0 [(true, 0)]) false 299000000).records
          = (run g0 [(true, 0)]).records) :=
  ⟨by decide,
    (release_threshold g0 (run g0 [(true, 0)]) 300000000 0
      (by decide) (by decide) (by decide)).1 (by decide),
    (release_threshold g0 (run g0 [(true, 0)]) 299000000 0
      (by decide) (by decide) (by decide)).2 (by decide)⟩

/-! ### Claim C7: duplicate edges are suppressed -/

/-- Claim C7: a press edge while the pressed flag is already set, and a release
edge while it is clear, leave the whole timer state unchanged. -/
theorem duplicate_edges_noop (g : CubeEvent → String) (s : CubeTimer) (now : Nat) :
    (s.space_pressed = true → handle_space_key g s true now = s) ∧
    (s.space_pressed = false → handle_space_key g s false now = s) := by
  constructor <;> intro h <;> simp [handle_space_key, h]

/-- Witness for C7: duplicate edges on concrete states are no-ops. -/
theorem duplicate_edges_noop_witness :
    (run g0 [(true, 0)]).space_pressed = true ∧
      handle_space_key g0 (run g0 [(true, 0)]) true 50 = run g0 [(true, 0)] ∧
      handle_space_key g0 (default_timer g0) false 50 = default_timer g0 :=
  ⟨by decide, (duplicate_edges_noop g0 (run g0 [(true, 0)]) 50).1 (by decide),
    (duplicate_edges_noop g0 (default_timer g0) 50).2 (by decide)⟩

/-! ### Claim C8: out-of-range indices are no-ops -/

/-- Claim C8: for every index at or past the end of the history, remove,
apply-penalty and set-comment leave the session (history, order, every record
field, and the statistics snapshot) unchanged. -/
theorem out_of_range_ops_noop (s : CubeTimer) (i : Nat) (p : Option Penalty) (c : String)
    (h : s.records.length ≤ i) :
    delete_time s i = s ∧ apply_penalty s i p = s ∧ update_time_comment s i c = s := by
  have hi : ¬ i < s.records.length := by omega
  refine ⟨?_, ?_, ?_⟩ <;> simp [delete_time, apply_penalty, update_time_comment, hi]

/-- Witness for C8: on a session holding one record, index 1 is out of range
and all three operations are no-ops. -/
theorem out_of_range_ops_noop_witness :
    (run g0 [(true, 0), (false, 300000000), (true, 1300000000)]).records.length ≤ 1 ∧
      (delete_time (run g0 [(true, 0), (false, 300000000), (true, 1300000000)]) 1 =
          run g0 [(true, 0), (false, 300000000), (true, 1300000000)] ∧
        apply_penalty (run g0 [(true, 0), (false, 300000000), (true, 1300000000)]) 1
            (some Penalty.DNF) =
          run g0 [(true, 0), (false, 300000000), (true, 1300000000)] ∧
        update_time_comment (run g0 [(true, 0), (false, 300000000), (true, 1300000000)]) 1
            ("late comment") =
          run g0 [(true, 0), (false, 300000000), (true, 1300000000)]) :=
  ⟨by decide,
    out_of_range_ops_noop (run g0 [(true, 0), (false, 300000000), (true, 1300000000)]) 1
      (some Penalty.DNF) ("late comment") (by decide)⟩

/-! ### Claims C6 and C10: best, worst and mean -/

@[simp] theorem calculate_averages_best (st : Statistics) (ts : List Nat) :
    (calculate_averages st ts).best = st.best := by
  simp only [calculate_averages]; split <;> split <;> split <;> rfl

@[simp] theorem calculate_averages_worst (st : Statistics) (ts : List Nat) :
    (calculate_averages st ts).worst = st.worst := by
  simp only [calculate_averages]; split <;> split <;> split <;> rfl

@[simp] theorem calculate_averages_mean (st : Statistics) (ts : List Nat) :
    (calculate_averages st ts).mean = st.mean := by
  simp only [calculate_averages]; split <;> split <;> split <;> rfl

theorem calculate_averages_ao5 (st : Statistics) (ts : List Nat) :
    (calculate_averages st ts).current_ao5 =
      if 5 ≤ ts.length then calculate_average (ts.reverse.take 5) else st.current_ao5 := by
  simp only [calculate_averages]; split <;> split <;> split <;> simp_all

theorem calculate_averages_ao12 (st : Statistics) (ts : List Nat) :
    (calculate_averages st ts).current_ao12 =
      if 12 ≤ ts.length then calculate_average (ts.reverse.take 12) else st.current_ao12 := by
  simp only [calculate_averages]; split <;> split <;> split <;> simp_all

theorem calculate_averages_ao100 (st : Statistics) (ts : List Nat) :
    (calculate_averages st ts).current_ao100 =
      if 100 ≤ ts.length then calculate_average (ts.reverse.take 100) else st.current_ao100 := by
  simp only [calculate_averages]; split <;> split <;> split <;> simp_all

theorem calculate_statistics_nonempty (s : CubeTimer) (h : filteredTimes s ≠ []) :
    (calculate_statistics s).statistics =
      calculate_averages (calculate_basic_stats s.statistics (filteredTimes s))
        (filteredTimes s) := by
  have : (filteredTimes s).isEmpty = false := by
    cases hf : filteredTimes s with
    | nil => exact absurd hf h
    | cons a t => rfl
  simp [calculate_statistics, this]

/-- Modelled from the spec's words, for comparison with the code path: the
rolling trimmed average over the most recent `W` records in chronological
insertion order — sort ascending, drop the lowest and highest
`trim = ⌈W × 0.05⌉` values, and average the remainder (no value if
`2 × trim ≥ W`). -/
def spec_rolling_average (W : Nat) (times : List Nat) : Option Nat :=
  let window := times.drop (times.length - W)
  let sorted := List.insertionSort (fun a b => a ≤ b) window
  let trim := (W + 19) / 20
  if W ≤ trim * 2 then none
  else some (((sorted.drop trim).take (W - trim - trim)).sum / (W - trim - trim))

theorem calculate_average_perm (l1 l2 : List Nat) (hp : l1.Perm l2) :
    calculate_average l1 = calculate_average l2 := by
  have hlen := hp.length_eq
  have hsort : List.insertionSort (fun a b => a ≤ b) l1
      = List.insertionSort (fun a b => a ≤ b) l2 :=
    List.eq_of_perm_of_sorted
      (((List.perm_insertionSort _ l1).trans hp).trans (List.perm_insertionSort _ l2).symm)
      (List.sorted_insertionSort _ l1) (List.sorted_insertionSort _ l2)
  simp only [calculate_average, hlen, hsort]

theorem rev_take_perm_drop (ts : List Nat) (W : Nat) :
    (ts.reverse.take W).Perm (ts.drop (ts.length - W)) := by
  rw [List.take_reverse]
  exact List.reverse_perm _

theorem calculate_average_eq (l : List Nat) (h5 : 5 ≤ l.length) :
    calculate_average l =
      (if l.length ≤ ((l.length + 19) / 20) * 2 then none
       else some ((((List.insertionSort (fun a b => a ≤ b) l).drop ((l.length + 19) / 20)).take
            (l.length - (l.length + 19) / 20 - (l.length + 19) / 20)).sum /
          (l.length - (l.length + 19) / 20 - (l.length + 19) / 20))) := by
  have h' : ¬ (l.length < 5) := by omega
  simp only [calculate_average, if_neg h', List.length_insertionSort, ge_iff_le]
  split
  · rfl
  · have hmin : min (l.length - (l.length + 19) / 20 - (l.length + 19) / 20)
        (l.length - (l.length + 19) / 20)
        = l.length - (l.length + 19) / 20 - (l.length + 19) / 20 := by omega
    simp [List.length_take, List.length_drop, List.length_insertionSort, hmin]

/-- The code's window (`iter().rev().take(W)`) has the same trimmed average as
the spec's window (the most recent `W` in chronological order). -/
theorem code_window_average (W : Nat) (ts : List Nat) (h5 : 5 ≤ W) (hW : W ≤ ts.length) :
    calculate_average (ts.reverse.take W) = spec_rolling_average W ts := by
  have hlenw : (ts.drop (ts.length - W)).length = W := by rw [List.length_drop]; omega
  rw [calculate_average_perm _ _ (rev_take_perm_drop ts W)]
  rw [calculate_average_eq _ (by rw [hlenw]; exact h5)]
  rw [hlenw]
  rfl

/-- Claim C5 (amended): after a recompute with at least `W ∈ {5,12,100}`
filtered records, the rolling average equals the spec's trimmed mean of the
most recent `W` records (sort ascending, drop `⌈W×0.05⌉` from each end,
average with truncation; no value if twice the trim count reaches `W`) and is
therefore present; with a non-empty filtered set of fewer than `W` records the
field RETAINS its previous value (it is not cleared, so it is not "present
exactly when at least W records exist" — see the counterexample); with an
empty filtered set it is cleared.  The spec's worked example yields 1000 ms. -/
theorem rolling_average_spec (s : CubeTimer) :
    (5 ≤ (filteredTimes s).length →
      (calculate_statistics s).statistics.current_ao5
        = spec_rolling_average 5 (filteredTimes s)) ∧
    (filteredTimes s ≠ [] → (filteredTimes s).length < 5 →
      (calculate_statistics s).statistics.current_ao5 = s.statistics.current_ao5) ∧
    (filteredTimes s = [] → (calculate_statistics s).statistics.current_ao5 = none) ∧
    (12 ≤ (filteredTimes s).length →
      (calculate_statistics s).statistics.current_ao12
        = spec_rolling_average 12 (filteredTimes s)) ∧
    (filteredTimes s ≠ [] → (filteredTimes s).length < 12 →
      (calculate_statistics s).statistics.current_ao12 = s.statistics.current_ao12) ∧
    (filteredTimes s = [] → (calculate_statistics s).statistics.current_ao12 = none) ∧
    (100 ≤ (filteredTimes s).length →
      (calculate_statistics s).statistics.current_ao100
        = spec_rolling_average 100 (filteredTimes s)) ∧
    (filteredTimes s ≠ [] → (filteredTimes s).length < 100 →
      (calculate_statistics s).statistics.current_ao100 = s.statistics.current_ao100) ∧
    (filteredTimes s = [] → (calculate_statistics s).statistics.current_ao100 = none) ∧
    (∀ ts : List Nat, (spec_rolling_average 5 ts).isSome = true) ∧
    (∀ ts : List Nat, (spec_rolling_average 12 ts).isSome = true) ∧
    (∀ ts : List Nat, (spec_rolling_average 100 ts).isSome = true) ∧
    spec_rolling_average 5 [900000000, 950000000, 1000000000, 1050000000, 1100000000]
      = some 1000000000 := by
  have hempty : filteredTimes s = [] →
      (calculate_statistics s).statistics = emptyStatistics := by
    intro h
    have : (filteredTimes s).isEmpty = true := by rw [h]; rfl
    simp [calculate_statistics, this]
  refine ⟨?_, ?_, ?_, ?_, ?_, ?_, ?_, ?_, ?_, ?_, ?_, ?_, ?_⟩
  · intro h
    have hne : filteredTimes s ≠ [] := by
      intro h0; rw [h0] at h; simp at h
    rw [calculate_statistics_nonempty s hne, calculate_averages_ao5, if_pos h]
    exact code_window_average 5 _ (by omega) h
  · intro hne h
    rw [calculate_statistics_nonempty s hne, calculate_averages_ao5,
      if_neg (by omega)]
    simp [calculate_basic_stats]
  · intro h; rw [hempty h]; rfl
  · intro h
    have hne : filteredTimes s ≠ [] := by
      intro h0; rw [h0] at h; simp at h
    rw [calculate_statistics_nonempty s hne, calculate_averages_ao12, if_pos h]
    exact code_window_average 12 _ (by omega) h
  · intro hne h
    rw [calculate_statistics_nonempty s hne, calculate_averages_ao12,
      if_neg (by omega)]
    simp [calculate_basic_stats]
  · intro h; rw [hempty h]; rfl
  · intro h
    have hne : filteredTimes s ≠ [] := by
      intro h0; rw [h0] at h; simp at h
    rw [calculate_statistics_nonempty s hne, calculate_averages_ao100, if_pos h]
    exact code_window_average 100 _ (by omega) h
  · intro hne h
    rw [calculate_statistics_nonempty s hne, calculate_averages_ao100,
      if_neg (by omega)]
    simp [calculate_basic_stats]
  · intro h; rw [hempty h]; rfl
  · intro ts; simp only [spec_rolling_average]; norm_num
  · intro ts; simp only [spec_rolling_average]; norm_num
  · intro ts; simp only [spec_rolling_average]; norm_num
  · decide

/-- Five identical solves of the active event, statistics recomputed. -/
def s5stale : CubeTimer :=
  calculate_statistics
    { default_timer g0 with records := List.replicate 5 (rec0 1000000000 none) }

/-- The state after deleting one of the five records: the engine recomputes
over the remaining four. -/
def s4stale : CubeTimer := delete_time s5stale 0

/-- Claim C5, counterexample: after deleting down to four filtered records the
recomputed snapshot still carries the previous Ao5 value, so the rolling
average is NOT "present exactly when the filtered set has at least W
records". -/
theorem rolling_average_presence_cex :
    (filteredTimes s4stale).length = 4 ∧
    s4stale.statistics.current_ao5 = some 1000000000 ∧
    ¬ ((s4stale.statistics.current_ao5.isSome = true) ↔
        5 ≤ (filteredTimes s4stale).length) := by
  decide

/-- The spec's worked example as a session: five solves of 900/950/1000/1050/
1100 ms. -/
def s5ex : CubeTimer :=
  { default_timer g0 with records :=
      [rec0 900000000 none, rec0 950000000 none, rec0 1000000000 none,
       rec0 1050000000 none, rec0 1100000000 none] }

/-- Witness for the amended C5: on the worked example the recomputed Ao5
equals the spec's trimmed mean, namely 1000 ms. -/
theorem rolling_average_spec_witness :
    5 ≤ (filteredTimes s5ex).length ∧
      (calculate_statistics s5ex).statistics.current_ao5
        = spec_rolling_average 5 (filteredTimes s5ex) ∧
      spec_rolling_average 5 (filteredTimes s5ex) = some 1000000000 :=
  ⟨by decide, (rolling_average_spec s5ex).1 (by decide), by decide⟩

/-! ### Claim C9: totality of the core operations

Each Rust panic site of the core is made explicit in a `Checked` variant that
returns `Except.error` exactly where the source can panic:
* `times.iter().sum::<Duration>()` folds `Duration::add`, which panics when a
  partial sum exceeds `Duration::MAX` (`u64::MAX` seconds + 999 999 999 ns);
* `sum / times.len() as u32` casts the `usize` length to `u32` (wrapping
  modulo 2^32) and `Duration / u32` panics when that divisor is zero;
* the slice `sorted[remove_count..len - remove_count]` panics out of bounds.
The claimed unconditional totality is false at the first two sites (see the
counterexample); the amended theorem proves totality for every state whose
filtered durations sum within `Duration::MAX` and whose filtered count stays
below 2^32. -/

/-- `Duration::MAX` in nanoseconds: `u64::MAX` seconds plus 999 999 999 ns. -/
def durationMax : Nat := 18446744073709551615 * 1000000000 + 999999999

/-- `Duration::add`, which panics when the sum exceeds `Duration::MAX`. -/
def durAddChecked (a b : Nat) : Except String Nat :=
  if durationMax < a + b then Except.error ("overflow when adding durations")
  else Except.ok (a + b)

/-- The left fold of `Duration::add` underlying `Iterator::sum::<Duration>`. -/
def sumCheckedAux : Nat → List Nat → Except String Nat
  | acc, [] => Except.ok acc
  | acc, a :: t =>
    match durAddChecked acc a with
    | Except.error e => Except.error e
    | Except.ok acc2 => sumCheckedAux acc2 t

/-- `Iterator::sum::<Duration>`: folds `Duration::add` from zero, panicking on
overflow. -/
def sumChecked (l : List Nat) : Except String Nat := sumCheckedAux 0 l

/-- `Duration / u32` applied to a `usize` length: `len as u32` wraps modulo
2^32, and the division panics when the wrapped divisor is zero. -/
def durDivChecked (d n : Nat) : Except String Nat :=
  if n % 4294967296 = 0 then
    Except.error ("divide by zero error when dividing duration by scalar")
  else Except.ok (d / (n % 4294967296))

/-- The slice `l[a..b]`, which panics unless `a ≤ b ≤ l.len()`. -/
def sliceChecked (l : List Nat) (a b : Nat) : Except String (List Nat) :=
  if a ≤ b ∧ b ≤ l.length then Except.ok ((l.drop a).take (b - a))
  else Except.error ("slice index out of range")

/-- `calculate_average` with its panic sites explicit. -/
def calculate_averageChecked (times : List Nat) : Except String (Option Nat) :=
  if times.length < 5 then Except.ok none
  else
    let sorted := List.insertionSort (fun a b => a ≤ b) times
    let remove_count := (times.length + 19) / 20
    if remove_count * 2 ≥ times.length then Except.ok none
    else
      match sliceChecked sorted remove_count (sorted.length - remove_count) with
      | Except.error e => Except.error e
      | Except.ok trimmed =>
        match sumChecked trimmed with
        | Except.error e => Except.error e
        | Except.ok su =>
          match durDivChecked su trimmed.length with
          | Except.error e => Except.error e
          | Except.ok avg => Except.ok (some avg)

/-- `calculate_basic_stats` with its panic sites explicit. -/
def calculate_basic_statsChecked (stats : Statistics) (times : List Nat) :
    Except String Statistics :=
  match sumChecked times with
  | Except.error e => Except.error e
  | Except.ok su =>
    match durDivChecked su times.length with
    | Except.error e => Except.error e
    | Except.ok m =>
        Except.ok { stats with best := listMin times, worst := listMax times, mean := some m }

/-- `calculate_averages` with its panic sites explicit. -/
def calculate_averagesChecked (stats : Statistics) (times : List Nat) :
    Except String Statistics :=
  match (if 5 ≤ times.length then
      match calculate_averageChecked (times.reverse.take 5) with
      | Except.error e => Except.error e
      | Except.ok a => Except.ok { stats with current_ao5 := a }
    else Except.ok stats) with
  | Except.error e => Except.error e
  | Except.ok s1 =>
    match (if 12 ≤ times.length then
        match calculate_averageChecked (times.reverse.take 12) with
        | Except.error e => Except.error e
        | Except.ok a => Except.ok { s1 with current_ao12 := a }
      else Except.ok s1) with
    | Except.error e => Except.error e
    | Except.ok s2 =>
      if 100 ≤ times.length then
        match calculate_averageChecked (times.reverse.take 100) with
        | Except.error e => Except.error e
        | Except.ok a => Except.ok { s2 with current_ao100 := a }
      else Except.ok s2

/-- `calculate_statistics` with its panic sites explicit. -/
def calculate_statisticsChecked (s : CubeTimer) : Except String CubeTimer :=
  let ts := filteredTimes s
  if ts.isEmpty then Except.ok { s with statistics := emptyStatistics }
  else
    match calculate_basic_statsChecked s.statistics ts with
    | Except.error e => Except.error e
    | Except.ok st1 =>
      match calculate_averagesChecked st1 ts with
      | Except.error e => Except.error e
      | Except.ok st2 => Except.ok { s with statistics := st2 }

section CheckedMachine

variable (g : CubeEvent → String)

/-- `save_time_record` with its panic sites explicit. -/
def save_time_recordChecked (s : CubeTimer) (tstamp : Nat) : Except String CubeTimer :=
  calculate_statisticsChecked
    { s with records := s.records ++
        [{ time := s.current_time, event := s.current_event,
           scramble := s.current_scramble, timestamp := tstamp,
           penalty := none, comment := "" }] }

/-- `stop_timer` with its panic sites explicit. -/
def stop_timerChecked (s : CubeTimer) (now : Nat) : Except String CubeTimer :=
  match s.start_time with
  | some st =>
      match save_time_recordChecked
          { s with current_time := now - st, last_time := some (now - st) } now with
      | Except.error e => Except.error e
      | Except.ok s3 =>
          Except.ok { generate_new_scramble g s3 with
            state := TimerState.Stopped, start_time := none }
  | none => Except.ok { s with state := TimerState.Stopped, start_time := none }

/-- `handle_space_press` with its panic sites explicit. -/
def handle_space_pressChecked (s : CubeTimer) (now : Nat) : Except String CubeTimer :=
  let s1 := { s with space_pressed := true, space_hold_start := some now }
  match s1.state with
  | TimerState.Ready => Except.ok { s1 with state := TimerState.Preparing }
  | TimerState.Running => stop_timerChecked g s1 now
  | TimerState.Stopped => Except.ok { s1 with state := TimerState.Preparing }
  | TimerState.Preparing => Except.ok s1

/-- `handle_space_key` with its panic sites explicit (the release path
performs no fallible operation). -/
def handle_space_keyChecked (s : CubeTimer) (pressed : Bool) (now : Nat) :
    Except String CubeTimer :=
  if pressed && !s.space_pressed then handle_space_pressChecked g s now
  else if !pressed && s.space_pressed then Except.ok (handle_space_release s now)
  else Except.ok s

/-- `delete_time` with its panic sites explicit (the bounds check is the
source's own). -/
def delete_timeChecked (s : CubeTimer) (index : Nat) : Except String CubeTimer :=
  if index < s.records.length then
    calculate_statisticsChecked { s with records := s.records.eraseIdx index }
  else Except.ok s

/-- `apply_penalty` with its panic sites explicit. -/
def apply_penaltyChecked (s : CubeTimer) (index : Nat) (p : Option Penalty) :
    Except String CubeTimer :=
  if index < s.records.length then
    calculate_statisticsChecked
      { s with records := modifyRecord (fun r => { r with penalty := p }) s.records index }
  else Except.ok s

/-- The core operations named by the spec: press and release edges, the tick
refresh, a statistics recompute, and the three record mutations. -/
inductive Op
  | press (now : Nat)
  | release (now : Nat)
  | tick (now : Nat)
  | recompute
  | remove (index : Nat)
  | penalize (index : Nat) (p : Option Penalty)
  | setComment (index : Nat) (c : String)

/-- One core operation, as the source executes it. -/
def step (s : CubeTimer) : Op → CubeTimer
  | Op.press now => handle_space_key g s true now
  | Op.release now => handle_space_key g s false now
  | Op.tick now => handle_timer_updates s now
  | Op.recompute => calculate_statistics s
  | Op.remove i => delete_time s i
  | Op.penalize i p => apply_penalty s i p
  | Op.setComment i c => update_time_comment s i c

/-- One core operation with every panic site explicit (tick and set-comment
perform no fallible operation). -/
def stepChecked (s : CubeTimer) : Op → Except String CubeTimer
  | Op.press now => handle_space_keyChecked g s true now
  | Op.release now => handle_space_keyChecked g s false now
  | Op.tick now => Except.ok (handle_timer_updates s now)
  | Op.recompute => calculate_statisticsChecked s
  | Op.remove i => delete_timeChecked s i
  | Op.penalize i p => apply_penaltyChecked s i p
  | Op.setComment i c => Except.ok (update_time_comment s i c)

end CheckedMachine

theorem sum_take_le (l : List Nat) (n : Nat) : (l.take n).sum ≤ l.sum := by
  conv_rhs => rw [← List.take_append_drop n l]
  rw [List.sum_append]
  omega

theorem sum_drop_le (l : List Nat) (n : Nat) : (l.drop n).sum ≤ l.sum := by
  conv_rhs => rw [← List.take_append_drop n l]
  rw [List.sum_append]
  omega

theorem sumCheckedAux_ok (l : List Nat) : ∀ acc : Nat, acc + l.sum ≤ durationMax →
    sumCheckedAux acc l = Except.ok (acc + l.sum) := by
  induction l with
  | nil => intro acc h; simp [sumCheckedAux]
  | cons a t ih =>
    intro acc h
    rw [List.sum_cons] at h
    have hna : ¬ durationMax < acc + a := by omega
    have ht := ih (acc + a) (by omega)
    simp [sumCheckedAux, durAddChecked, hna, ht, Nat.add_assoc]

theorem sumChecked_ok (l : List Nat) (h : l.sum ≤ durationMax) :
    sumChecked l = Except.ok l.sum := by
  simpa [sumChecked] using sumCheckedAux_ok l 0 (by omega)

theorem calculate_averageChecked_ok (times : List Nat)
    (hsum : times.sum ≤ durationMax) (hlen : times.length < 4294967296) :
    calculate_averageChecked times = Except.ok (calculate_average times) := by
  by_cases h1 : times.length < 5
  · simp [calculate_averageChecked, calculate_average, h1]
  · by_cases h2 : (times.length + 19) / 20 * 2 ≥ times.length
    · simp [calculate_averageChecked, calculate_average, h1, h2]
    · have hc : (times.length + 19) / 20 ≤ times.length - (times.length + 19) / 20 := by
        omega
      have hlenT : (List.take
            (times.length - (times.length + 19) / 20 - (times.length + 19) / 20)
            (List.drop ((times.length + 19) / 20)
              (List.insertionSort (fun a b => a ≤ b) times))).length
          = times.length - (times.length + 19) / 20 - (times.length + 19) / 20 := by
        rw [List.length_take, List.length_drop, List.length_insertionSort]; omega
      have hsumT : (List.take
            (times.length - (times.length + 19) / 20 - (times.length + 19) / 20)
            (List.drop ((times.length + 19) / 20)
              (List.insertionSort (fun a b => a ≤ b) times))).sum ≤ durationMax := by
        refine le_trans (le_trans (sum_take_le _ _) (sum_drop_le _ _)) ?_
        rw [(List.perm_insertionSort (fun a b => a ≤ b) times).sum_eq]
        exact hsum
      have hok := sumChecked_ok _ hsumT
      have hmod : (times.length - (times.length + 19) / 20 - (times.length + 19) / 20) %
            4294967296
          = times.length - (times.length + 19) / 20 - (times.length + 19) / 20 :=
        Nat.mod_eq_of_lt (by omega)
      have hne : ¬ (times.length - (times.length + 19) / 20 - (times.length + 19) / 20
          = 0) := by
        omega
      simp [calculate_averageChecked, calculate_average, h1, h2, sliceChecked, hc,
        hok, hlenT, durDivChecked, hmod, hne]

theorem calculate_basic_statsChecked_ok (stats : Statistics) (times : List Nat)
    (h : times.length ≠ 0) (hsum : times.sum ≤ durationMax)
    (hlen : times.length < 4294967296) :
    calculate_basic_statsChecked stats times
      = Except.ok (calculate_basic_stats stats times) := by
  have hok := sumChecked_ok times hsum
  have hmod : times.length % 4294967296 = times.length := Nat.mod_eq_of_lt hlen
  simp [calculate_basic_statsChecked, hok, durDivChecked, hmod, h, calculate_basic_stats]

theorem calculate_averagesChecked_ok (stats : Statistics) (times : List Nat)
    (hsum : times.sum ≤ durationMax) :
    calculate_averagesChecked stats times = Except.ok (calculate_averages stats times) := by
  have hrev : times.reverse.sum = times.sum := List.sum_reverse times
  have hs5 : (times.reverse.take 5).sum ≤ durationMax :=
    le_trans (le_of_le_of_eq (sum_take_le _ _) hrev) hsum
  have hs12 : (times.reverse.take 12).sum ≤ durationMax :=
    le_trans (le_of_le_of_eq (sum_take_le _ _) hrev) hsum
  have hs100 : (times.reverse.take 100).sum ≤ durationMax :=
    le_trans (le_of_le_of_eq (sum_take_le _ _) hrev) hsum
  have hl5 : (times.reverse.take 5).length < 4294967296 := by
    rw [List.length_take]; omega
  have hl12 : (times.reverse.take 12).length < 4294967296 := by
    rw [List.length_take]; omega
  have hl100 : (times.reverse.take 100).length < 4294967296 := by
    rw [List.length_take]; omega
  have ha5 := calculate_averageChecked_ok _ hs5 hl5
  have ha12 := calculate_averageChecked_ok _ hs12 hl12
  have ha100 := calculate_averageChecked_ok _ hs100 hl100
  by_cases h5 : 5 ≤ times.length <;> by_cases h12 : 12 ≤ times.length <;>
    by_cases h100 : 100 ≤ times.length <;>
      simp [calculate_averagesChecked, calculate_averages, h5, h12, h100, ha5, ha12, ha100]

theorem calculate_statisticsChecked_ok (s : CubeTimer)
    (hsum : (filteredTimes s).sum ≤ durationMax)
    (hlen : (filteredTimes s).length < 4294967296) :
    calculate_statisticsChecked s = Except.ok (calculate_statistics s) := by
  by_cases h : (filteredTimes s).isEmpty
  · simp [calculate_statisticsChecked, calculate_statistics, h]
  · have hlen0 : (filteredTimes s).length ≠ 0 := by
      cases hf : filteredTimes s with
      | nil => rw [hf] at h; simp at h
      | cons a t => simp
    simp [calculate_statisticsChecked, calculate_statistics, h,
      calculate_basic_statsChecked_ok _ _ hlen0 hsum hlen,
      calculate_averagesChecked_ok _ _ hsum]

theorem filteredTimes_calculate_statistics (s : CubeTimer) :
    filteredTimes (calculate_statistics s) = filteredTimes s := by
  unfold filteredTimes
  rw [calculate_statistics_records, calculate_statistics_current_event]

theorem save_time_recordChecked_ok (s : CubeTimer) (t : Nat)
    (hsum : (filteredTimes (save_time_record s t)).sum ≤ durationMax)
    (hlen : (filteredTimes (save_time_record s t)).length < 4294967296) :
    save_time_recordChecked s t = Except.ok (save_time_record s t) := by
  unfold save_time_record at hsum hlen ⊢
  rw [filteredTimes_calculate_statistics] at hsum hlen
  unfold save_time_recordChecked
  exact calculate_statisticsChecked_ok _ hsum hlen

theorem stop_timerChecked_ok (g : CubeEvent → String) (s : CubeTimer) (now : Nat)
    (hsum : (filteredTimes (stop_timer g s now)).sum ≤ durationMax)
    (hlen : (filteredTimes (stop_timer g s now)).length < 4294967296) :
    stop_timerChecked g s now = Except.ok (stop_timer g s now) := by
  cases hs : s.start_time with
  | none => simp [stop_timerChecked, stop_timer, hs]
  | some st =>
    have heq : filteredTimes (stop_timer g s now)
        = filteredTimes (save_time_record
            { s with
                start_time := some st
                current_time := now - st
                last_time := some (now - st) } now) := by
      simp [stop_timer, hs, filteredTimes, generate_new_scramble]
    rw [heq] at hsum hlen
    simp [stop_timerChecked, stop_timer, hs, save_time_recordChecked_ok _ _ hsum hlen]

theorem handle_space_pressChecked_ok (g : CubeEvent → String) (s : CubeTimer) (now : Nat)
    (hsum : (filteredTimes (handle_space_press g s now)).sum ≤ durationMax)
    (hlen : (filteredTimes (handle_space_press g s now)).length < 4294967296) :
    handle_space_pressChecked g s now = Except.ok (handle_space_press g s now) := by
  cases hs : s.state with
  | Running =>
    have heq : filteredTimes (handle_space_press g s now)
        = filteredTimes (stop_timer g
            { s with
                state := TimerState.Running
                space_pressed := true
                space_hold_start := some now } now) := by
      simp [handle_space_press, hs]
    rw [heq] at hsum hlen
    simp [handle_space_pressChecked, handle_space_press, hs,
      stop_timerChecked_ok _ _ _ hsum hlen]
  | Ready => simp [handle_space_pressChecked, handle_space_press, hs]
  | Preparing => simp [handle_space_pressChecked, handle_space_press, hs]
  | Stopped => simp [handle_space_pressChecked, handle_space_press, hs]

theorem handle_space_keyChecked_ok (g : CubeEvent → String) (s : CubeTimer) (p : Bool)
    (now : Nat)
    (hsum : (filteredTimes (handle_space_key g s p now)).sum ≤ durationMax)
    (hlen : (filteredTimes (handle_space_key g s p now)).length < 4294967296) :
    handle_space_keyChecked g s p now = Except.ok (handle_space_key g s p now) := by
  by_cases h1 : (p && !s.space_pressed) = true
  · have heq : handle_space_key g s p now = handle_space_press g s now := by
      simp [handle_space_key, h1]
    rw [heq] at hsum hlen
    rw [heq]
    simp [handle_space_keyChecked, h1, handle_space_pressChecked_ok _ _ _ hsum hlen]
  · by_cases h2 : (!p && s.space_pressed) = true <;>
      simp [handle_space_keyChecked, handle_space_key, h1, h2]

theorem delete_timeChecked_ok (s : CubeTimer) (i : Nat)
    (hsum : (filteredTimes (delete_time s i)).sum ≤ durationMax)
    (hlen : (filteredTimes (delete_time s i)).length < 4294967296) :
    delete_timeChecked s i = Except.ok (delete_time s i) := by
  by_cases h : i < s.records.length
  · have heq : filteredTimes (delete_time s i)
        = filteredTimes { s with records := s.records.eraseIdx i } := by
      simp [delete_time, h, filteredTimes_calculate_statistics]
    rw [heq] at hsum hlen
    simp [delete_timeChecked, delete_time, h, calculate_statisticsChecked_ok _ hsum hlen]
  · simp [delete_timeChecked, delete_time, h]

theorem apply_penaltyChecked_ok (s : CubeTimer) (i : Nat) (p : Option Penalty)
    (hsum : (filteredTimes (apply_penalty s i p)).sum ≤ durationMax)
    (hlen : (filteredTimes (apply_penalty s i p)).length < 4294967296) :
    apply_penaltyChecked s i p = Except.ok (apply_penalty s i p) := by
  by_cases h : i < s.records.length
  · have heq : filteredTimes (apply_penalty s i p)
        = filteredTimes { s with
            records := modifyRecord (fun r => { r with penalty := p }) s.records i } := by
      simp [apply_penalty, h, filteredTimes_calculate_statistics]
    rw [heq] at hsum hlen
    simp [apply_penaltyChecked, apply_penalty, h, calculate_statisticsChecked_ok _ hsum hlen]
  · simp [apply_penaltyChecked, apply_penalty, h]

/-- Claim C9 (amended): every core operation is total for every state whose
recomputed filtered history keeps the duration sum within `Duration::MAX` and
the filtered count below 2^32: under those two side conditions the checked
semantics — in which every Rust panic site (`Duration::add` overflow inside
`sum()`, the zero divisor produced when `len as u32` wraps, slice bounds) is
an explicit error — returns `Except.ok` of the ordinary result; unlisted
events fall into the catch-all branches and are ignored.  Without the side
conditions totality fails: see the overflow counterexample. -/
theorem core_ops_total (g : CubeEvent → String) (s : CubeTimer) (op : Op)
    (hsum : (filteredTimes (step g s op)).sum ≤ durationMax)
    (hlen : (filteredTimes (step g s op)).length < 4294967296) :
    stepChecked g s op = Except.ok (step g s op) := by
  cases op with
  | press now =>
    simp only [step] at hsum hlen
    exact handle_space_keyChecked_ok g s true now hsum hlen
  | release now =>
    simp only [step] at hsum hlen
    exact handle_space_keyChecked_ok g s false now hsum hlen
  | tick now => rfl
  | recompute =>
    simp only [step] at hsum hlen
    rw [filteredTimes_calculate_statistics] at hsum hlen
    exact calculate_statisticsChecked_ok s hsum hlen
  | remove i =>
    simp only [step] at hsum hlen
    exact delete_timeChecked_ok s i hsum hlen
  | penalize i p =>
    simp only [step] at hsum hlen
    exact apply_penaltyChecked_ok s i p hsum hlen
  | setComment i c => rfl

/-- A session whose two records of the active event carry `Duration::MAX`. -/
def overflowSession : CubeTimer :=
  { default_timer g0 with records := [rec0 durationMax none, rec0 durationMax none] }

/-- Claim C9, counterexample: totality as claimed is false — recomputing the
statistics of a session holding two `Duration::MAX` solves panics in the
source at `times.iter().sum()` (`Duration::add` overflows), so the checked
recompute returns the overflow error rather than a value.  (Such states are
states of the program's own state type: `load_records` deserializes arbitrary
durations from `records.json`.) -/
theorem duration_overflow_panic_cex :
    stepChecked g0 overflowSession Op.recompute
      = Except.error ("overflow when adding durations") := by
  rfl

/-- One ordinary solve of one second. -/
def wSession : CubeTimer :=
  { default_timer g0 with records := [rec0 1000000000 none] }

/-- Witness for the amended C9: a recompute over one ordinary record meets
both side conditions and returns normally. -/
theorem core_ops_total_witness :
    (filteredTimes (step g0 wSession Op.recompute)).sum ≤ durationMax ∧
      (filteredTimes (step g0 wSession Op.recompute)).length < 4294967296 ∧
      stepChecked g0 wSession Op.recompute
        = Except.ok (step g0 wSession Op.recompute) :=
  ⟨by decide, by decide, core_ops_total g0 wSession Op.recompute (by decide) (by decide)⟩

end LSTimer
